import Mathlib

/-!
Verification of the core logic of a browser Snake game (src/lib.rs).

The game has a 2D variant (`Game2D`) and a 3D variant (`Game3D`) sharing a
per-tick `update` step, a keyboard-driven direction change (`change_dir`), a
3D orientation frame under discrete pitch/yaw rotations, and a perspective
projection used by the 3D renderer.  We embed the state and the transition
functions shallowly: `VecDeque` becomes a Lean `List` with the head at the
front, Rust `i32` arithmetic becomes `Int` (the values involved are tiny, far
from any overflow), the Rust truncating `%` becomes `Int.tmod`, the external
random source `js_sys::Math::random()` (a uniform value in `[0,1)`) becomes
an explicit rational parameter, and `f64` canvas arithmetic is modelled
exactly over `ℚ` (all projection claims we check involve only values on which
`f64` arithmetic is exact).  Canvas/DOM side effects (`set_score`,
`show_restart`, draw calls) carry no game state and are dropped; the depth
sort performed by `Game3D::draw` is kept as `drawItems`.
-/

namespace SnakeGame

/-- Grid width in cells (`const WIDTH: i32 = 20`). -/
def WIDTH : Int := 20

/-- Grid height in cells (`const HEIGHT: i32 = 20`). -/
def HEIGHT : Int := 20

/-- Grid depth in cells (`const DEPTH: i32 = 20`). -/
def DEPTH : Int := 20

/-- Pixel size of one cell (`const CELL: f64 = 20.0`). -/
def CELL : ℚ := 20

/-- Models `(js_sys::Math::random() * extent as f64) as i32`: a uniform sample
`r ∈ [0,1)` scaled by the extent and truncated toward zero; truncation equals
`Int.floor` on the nonnegative values the generator produces. -/
def randCoord (r : ℚ) (extent : Int) : Int := (r * (extent : ℚ)).floor

/-- The 2D game state (`struct Game2D`); the canvas handle `ctx` carries no
game state and is dropped.  The snake list has its head at the front, matching
`VecDeque` with `push_front`/`pop_back`. -/
structure Game2D where
  snake : List (Int × Int)
  dir : Int × Int
  food : Int × Int
  alive : Bool
  score : Int
deriving DecidableEq

/-- `Game2D::new`: a length-1 snake at the grid center, heading right,
food at (5,5), alive, score 0. -/
def Game2D.new : Game2D :=
  { snake := [(WIDTH / 2, HEIGHT / 2)]
    dir := (1, 0)
    food := (5, 5)
    alive := true
    score := 0 }

/-- `Game2D::change_dir`: arrow keys set the direction unless the current
direction has the blocked component (prevents instant reversal). -/
def Game2D.change_dir (g : Game2D) (key : String) : Game2D :=
  if key = "ArrowUp" ∧ g.dir.2 ≠ 1 then { g with dir := (0, -1) }
  else if key = "ArrowDown" ∧ g.dir.2 ≠ -1 then { g with dir := (0, 1) }
  else if key = "ArrowLeft" ∧ g.dir.1 ≠ 1 then { g with dir := (-1, 0) }
  else if key = "ArrowRight" ∧ g.dir.1 ≠ -1 then { g with dir := (1, 0) }
  else g

/-- The wrapped new head computed at the start of `Game2D::update`:
`(head + dir + extent) % extent` per axis, with the Rust truncating `%`. -/
def Game2D.newHead (g : Game2D) : Int × Int :=
  ((g.snake.headI.1 + g.dir.1 + WIDTH).tmod WIDTH,
   (g.snake.headI.2 + g.dir.2 + HEIGHT).tmod HEIGHT)

/-- `Game2D::update`.  `r1, r2` are the two `Math::random()` samples consumed
if food is eaten this tick.  The source unwraps `snake.front()`; an empty
snake (unreachable: the length is always ≥ 1) is totalized as a no-op. -/
def Game2D.update (g : Game2D) (r1 r2 : ℚ) : Game2D :=
  if !g.alive then g
  else if g.snake = [] then g
  else
    let nh := g.newHead
    if nh ∈ g.snake then { g with alive := false }
    else if nh = g.food then
      { g with snake := nh :: g.snake
               score := g.score + 1
               food := (randCoord r1 WIDTH, randCoord r2 HEIGHT) }
    else { g with snake := (nh :: g.snake).dropLast }

/-- `struct Vec3(i32, i32, i32)`. -/
structure Vec3 where
  x : Int
  y : Int
  z : Int
deriving DecidableEq

instance : Inhabited Vec3 := ⟨⟨0, 0, 0⟩⟩

/-- `Vec3::add`. -/
def Vec3.add (a b : Vec3) : Vec3 := ⟨a.x + b.x, a.y + b.y, a.z + b.z⟩

/-- `Vec3::wrap`: `(value + extent) % extent` per axis, truncating `%`. -/
def Vec3.wrap (v : Vec3) : Vec3 :=
  ⟨(v.x + WIDTH).tmod WIDTH, (v.y + HEIGHT).tmod HEIGHT, (v.z + DEPTH).tmod DEPTH⟩

/-- `Vec3::neg`. -/
def Vec3.neg (v : Vec3) : Vec3 := ⟨-v.x, -v.y, -v.z⟩

/-- Integer dot product, used to state orthonormality of the frame. -/
def Vec3.dot (a b : Vec3) : Int := a.x * b.x + a.y * b.y + a.z * b.z

/-- The orientation frame of the 3D snake (`struct Orientation`):
forward, up, right. -/
structure Orientation where
  f : Vec3
  u : Vec3
  r : Vec3
deriving DecidableEq

/-- `Orientation::new`: forward (0,0,1), up (1,0,0), right (0,1,0). -/
def Orientation.new : Orientation := ⟨⟨0, 0, 1⟩, ⟨1, 0, 0⟩, ⟨0, 1, 0⟩⟩

/-- `Orientation::pitch_up`: forward becomes up, up becomes -forward. -/
def Orientation.pitch_up (o : Orientation) : Orientation := ⟨o.u, o.f.neg, o.r⟩

/-- `Orientation::pitch_down`: forward becomes -up, up becomes forward. -/
def Orientation.pitch_down (o : Orientation) : Orientation := ⟨o.u.neg, o.f, o.r⟩

/-- `Orientation::yaw_left`: forward becomes -right, right becomes forward. -/
def Orientation.yaw_left (o : Orientation) : Orientation := ⟨o.r.neg, o.u, o.f⟩

/-- `Orientation::yaw_right`: forward becomes right, right becomes -forward. -/
def Orientation.yaw_right (o : Orientation) : Orientation := ⟨o.r, o.u, o.f.neg⟩

/-- The four orientation transitions, for quantifying over key sequences. -/
inductive Turn where
  | pitchUp
  | pitchDown
  | yawLeft
  | yawRight
deriving DecidableEq

/-- Apply one transition to the frame. -/
def Orientation.applyTurn (o : Orientation) (t : Turn) : Orientation :=
  match t with
  | Turn.pitchUp => o.pitch_up
  | Turn.pitchDown => o.pitch_down
  | Turn.yawLeft => o.yaw_left
  | Turn.yawRight => o.yaw_right

/-- Apply a finite sequence of transitions, first element first. -/
def Orientation.applyTurns (o : Orientation) (ts : List Turn) : Orientation :=
  ts.foldl Orientation.applyTurn o

/-- The 3D game state (`struct Game3D`), canvas handle dropped. -/
structure Game3D where
  snake : List Vec3
  orient : Orientation
  food : Vec3
  alive : Bool
  score : Int
deriving DecidableEq

/-- `Game3D::new`. -/
def Game3D.new : Game3D :=
  { snake := [⟨WIDTH / 2, HEIGHT / 2, DEPTH / 2⟩]
    orient := Orientation.new
    food := ⟨5, 5, 5⟩
    alive := true
    score := 0 }

/-- `Game3D::change_dir`: arrow keys rotate the orientation frame,
with no gating. -/
def Game3D.change_dir (g : Game3D) (key : String) : Game3D :=
  if key = "ArrowUp" then { g with orient := g.orient.pitch_up }
  else if key = "ArrowDown" then { g with orient := g.orient.pitch_down }
  else if key = "ArrowLeft" then { g with orient := g.orient.yaw_left }
  else if key = "ArrowRight" then { g with orient := g.orient.yaw_right }
  else g

/-- The wrapped new head computed in `Game3D::update`:
`(head + forward).wrap()`. -/
def Game3D.newHead (g : Game3D) : Vec3 := (g.snake.headI.add g.orient.f).wrap

/-- `Game3D::update`.  Note the source pops the tail (or relocates food)
before pushing the new head; the food comparison is componentwise. -/
def Game3D.update (g : Game3D) (r1 r2 r3 : ℚ) : Game3D :=
  if !g.alive then g
  else if g.snake = [] then g
  else
    let nh := g.newHead
    if nh ∈ g.snake then { g with alive := false }
    else if nh.x = g.food.x ∧ nh.y = g.food.y ∧ nh.z = g.food.z then
      { g with score := g.score + 1
               food := ⟨randCoord r1 WIDTH, randCoord r2 HEIGHT, randCoord r3 DEPTH⟩
               snake := nh :: g.snake }
    else { g with snake := nh :: g.snake.dropLast }

/-- The drawable items assembled and depth-sorted by `Game3D::draw`: all
snake cells (green), then the food (red), stably sorted by the z coordinate
ascending (`items.sort_by_key(p.2)`; the Rust sort is stable, as is
`List.mergeSort`). -/
def Game3D.drawItems (g : Game3D) : List (Vec3 × String) :=
  ((g.snake.map (fun p => (p, "green"))) ++ [(g.food, "red")]).mergeSort
    (fun a b => a.1.z ≤ b.1.z)

/-- `project_point`: perspective projection of a 3D point to pixel
coordinates, with `d = DEPTH * 2` and center `(WIDTH/2, HEIGHT/2)`; `f64`
arithmetic modelled exactly over `ℚ`. -/
def project_point (x y z : ℚ) : ℚ × ℚ :=
  let d : ℚ := (DEPTH : ℚ) * 2
  let zf : ℚ := z + d
  let px : ℚ := (x - (WIDTH : ℚ) / 2) * d / zf + (WIDTH : ℚ) / 2
  let py : ℚ := (y - (HEIGHT : ℚ) / 2) * d / zf + (HEIGHT : ℚ) / 2
  (px * CELL, py * CELL)

/-- Modelled from the spec: pixel = `(coord - center) × k / (coord.z + k) +
center` per axis, with `k` twice the depth extent and `center` half the grid
extent on each axis, scaled by the cell size.  Stated for comparison with
`project_point`, which is translated from the source. -/
def projectSpec (x y z : ℚ) : ℚ × ℚ :=
  let k : ℚ := 2 * (DEPTH : ℚ)
  let cx : ℚ := (WIDTH : ℚ) / 2
  let cy : ℚ := (HEIGHT : ℚ) / 2
  (((x - cx) * k / (z + k) + cx) * CELL, ((y - cy) * k / (z + k) + cy) * CELL)

/-- 2D states reachable from a fresh instance by any sequence of `update`
(with arbitrary random samples), `change_dir` and `restart`;
`GameVariant::restart` replaces the state with `Game2D::new`. -/
inductive Reach2D : Game2D → Prop where
  | init : Reach2D Game2D.new
  | step (g : Game2D) (r1 r2 : ℚ) : Reach2D g → Reach2D (g.update r1 r2)
  | key (g : Game2D) (k : String) : Reach2D g → Reach2D (g.change_dir k)
  | restart (g : Game2D) : Reach2D g → Reach2D Game2D.new

/-- 3D states reachable from a fresh instance by any sequence of `update`,
`change_dir` and `restart`. -/
inductive Reach3D : Game3D → Prop where
  | init : Reach3D Game3D.new
  | step (g : Game3D) (r1 r2 r3 : ℚ) : Reach3D g → Reach3D (g.update r1 r2 r3)
  | key (g : Game3D) (k : String) : Reach3D g → Reach3D (g.change_dir k)
  | restart (g : Game3D) : Reach3D g → Reach3D Game3D.new

/-- A signed standard basis vector: exactly one component is ±1, the rest 0. -/
def Vec3.IsSignedUnit (v : Vec3) : Prop :=
  v = ⟨1, 0, 0⟩ ∨ v = ⟨-1, 0, 0⟩ ∨ v = ⟨0, 1, 0⟩ ∨
  v = ⟨0, -1, 0⟩ ∨ v = ⟨0, 0, 1⟩ ∨ v = ⟨0, 0, -1⟩

/-- The principal axis a vector lies on (0 = x, 1 = y, 2 = z); meaningful for
signed basis vectors, used to state that no two frame vectors share an axis. -/
def Vec3.axisIdx (v : Vec3) : Nat := if v.x ≠ 0 then 0 else if v.y ≠ 0 then 1 else 2

/-- The orientation frame is a signed permutation of the standard basis:
each vector is a signed basis vector of unit length, the three are pairwise
orthogonal, and no two lie on the same axis. -/
def Orientation.FrameOK (o : Orientation) : Prop :=
  o.f.IsSignedUnit ∧ o.u.IsSignedUnit ∧ o.r.IsSignedUnit ∧
  o.f.dot o.f = 1 ∧ o.u.dot o.u = 1 ∧ o.r.dot o.r = 1 ∧
  o.f.dot o.u = 0 ∧ o.f.dot o.r = 0 ∧ o.u.dot o.r = 0 ∧
  o.f.axisIdx ≠ o.u.axisIdx ∧ o.f.axisIdx ≠ o.r.axisIdx ∧ o.u.axisIdx ≠ o.r.axisIdx

/-- Invariant of reachable 2D states: score tracks snake length minus one,
and the snake is never empty. -/
def Inv2D (g : Game2D) : Prop :=
  g.score = (g.snake.length : Int) - 1 ∧ 1 ≤ g.snake.length

/-- Invariant of reachable 3D states: score tracks snake length minus one,
and the snake is never empty. -/
def Inv3D (g : Game3D) : Prop :=
  g.score = (g.snake.length : Int) - 1 ∧ 1 ≤ g.snake.length

/-- A 2D state about to run head-first into its own body. -/
def gSelf2 : Game2D :=
  { snake := [(10, 10), (11, 10)], dir := (1, 0), food := (5, 5), alive := true, score := 1 }

/-- A 3D state about to run head-first into its own body (forward is +z). -/
def gSelf3 : Game3D :=
  { snake := [⟨10, 10, 10⟩, ⟨10, 10, 11⟩], orient := Orientation.new, food := ⟨5, 5, 5⟩,
    alive := true, score := 1 }

/-- The eating scenario of the spec: length-1 snake at (10,10) heading right,
food directly ahead at (11,10). -/
def gEat : Game2D :=
  { snake := [(10, 10)], dir := (1, 0), food := (11, 10), alive := true, score := 0 }

/-- The wrap-around scenario of the spec: length-1 snake at (19,10) heading
right on a width-20 grid. -/
def gWrap : Game2D :=
  { snake := [(19, 10)], dir := (1, 0), food := (5, 5), alive := true, score := 0 }

/-- A 3D state with a snake cell at depth 0 (nearest plane under the
perspective projection) and the food at depth 19 (farthest plane). -/
def gDepth : Game3D :=
  { snake := [⟨10, 10, 0⟩], orient := Orientation.new, food := ⟨5, 5, 19⟩,
    alive := true, score := 0 }

/-! ### Helper lemmas -/

theorem Vec3.eq_iff {a b : Vec3} : a = b ↔ a.x = b.x ∧ a.y = b.y ∧ a.z = b.z := by
  cases a; cases b; simp

theorem Vec3.dot_comm (a b : Vec3) : a.dot b = b.dot a := by
  simp only [Vec3.dot]; ring

theorem Vec3.neg_dot (a b : Vec3) : a.neg.dot b = -(a.dot b) := by
  simp only [Vec3.neg, Vec3.dot]; ring

theorem Vec3.axisIdx_neg (v : Vec3) : v.neg.axisIdx = v.axisIdx := by
  simp [Vec3.neg, Vec3.axisIdx]

instance (v : Vec3) : Decidable v.IsSignedUnit := by
  unfold Vec3.IsSignedUnit; infer_instance

theorem Vec3.isSignedUnit_neg {v : Vec3} (h : v.IsSignedUnit) : v.neg.IsSignedUnit := by
  rcases h with h | h | h | h | h | h <;> subst h <;> decide

theorem Vec3.isSignedUnit_dot_self {v : Vec3} (h : v.IsSignedUnit) : v.dot v = 1 := by
  rcases h with h | h | h | h | h | h <;> subst h <;> decide

theorem randCoord_eq_floor (r : ℚ) (e : Int) : randCoord r e = ⌊r * (e : ℚ)⌋ := rfl

theorem tmod_range (a b : Int) (ha : 0 ≤ a) (hb : 0 < b) :
    0 ≤ a.tmod b ∧ a.tmod b < b := by
  rw [Int.tmod_eq_emod ha (le_of_lt hb)]
  exact ⟨Int.emod_nonneg a (by omega), Int.emod_lt_of_pos a hb⟩

theorem change_dir2D_fields (g : Game2D) (k : String) :
    (g.change_dir k).snake = g.snake ∧ (g.change_dir k).score = g.score ∧
    (g.change_dir k).alive = g.alive ∧ (g.change_dir k).food = g.food := by
  unfold Game2D.change_dir
  split_ifs <;> exact ⟨rfl, rfl, rfl, rfl⟩

theorem change_dir3D_fields (g : Game3D) (k : String) :
    (g.change_dir k).snake = g.snake ∧ (g.change_dir k).score = g.score := by
  unfold Game3D.change_dir
  split_ifs <;> exact ⟨rfl, rfl⟩

theorem update2D_eq (g : Game2D) (r1 r2 : ℚ) (ha : g.alive = true)
    (hne : g.snake ≠ []) :
    g.update r1 r2 =
      if g.newHead ∈ g.snake then { g with alive := false }
      else if g.newHead = g.food then
        { g with snake := g.newHead :: g.snake
                 score := g.score + 1
                 food := (randCoord r1 WIDTH, randCoord r2 HEIGHT) }
      else { g with snake := (g.newHead :: g.snake).dropLast } := by
  unfold Game2D.update
  simp [ha, hne]

theorem update3D_eq (g : Game3D) (r1 r2 r3 : ℚ) (ha : g.alive = true)
    (hne : g.snake ≠ []) :
    g.update r1 r2 r3 =
      if g.newHead ∈ g.snake then { g with alive := false }
      else if g.newHead.x = g.food.x ∧ g.newHead.y = g.food.y ∧ g.newHead.z = g.food.z then
        { g with score := g.score + 1
                 food := ⟨randCoord r1 WIDTH, randCoord r2 HEIGHT, randCoord r3 DEPTH⟩
                 snake := g.newHead :: g.snake }
      else { g with snake := g.newHead :: g.snake.dropLast } := by
  unfold Game3D.update
  simp [ha, hne]

theorem update2D_dead (g : Game2D) (r1 r2 : ℚ) (ha : g.alive = false) :
    g.update r1 r2 = g := by
  unfold Game2D.update
  simp [ha]

theorem update3D_dead (g : Game3D) (r1 r2 r3 : ℚ) (ha : g.alive = false) :
    g.update r1 r2 r3 = g := by
  unfold Game3D.update
  simp [ha]

theorem inv2D_update {g : Game2D} (r1 r2 : ℚ) (h : Inv2D g) : Inv2D (g.update r1 r2) := by
  obtain ⟨hs, hl⟩ := h
  by_cases ha : g.alive = true
  · have hne : g.snake ≠ [] := by
      intro he
      rw [he] at hl
      simp at hl
    rw [update2D_eq g r1 r2 ha hne]
    split_ifs with h1 h2
    · exact ⟨hs, hl⟩
    · refine ⟨?_, ?_⟩ <;> simp only [List.length_cons] <;> push_cast <;> omega
    · refine ⟨?_, ?_⟩ <;>
        simp only [List.length_dropLast, List.length_cons, Nat.add_sub_cancel] <;>
        [exact hs; exact hl]
  · rw [update2D_dead g r1 r2 (by revert ha; cases g.alive <;> simp)]
    exact ⟨hs, hl⟩

theorem inv3D_update {g : Game3D} (r1 r2 r3 : ℚ) (h : Inv3D g) :
    Inv3D (g.update r1 r2 r3) := by
  obtain ⟨hs, hl⟩ := h
  by_cases ha : g.alive = true
  · have hne : g.snake ≠ [] := by
      intro he
      rw [he] at hl
      simp at hl
    rw [update3D_eq g r1 r2 r3 ha hne]
    split_ifs with h1 h2
    · exact ⟨hs, hl⟩
    · refine ⟨?_, ?_⟩ <;> simp only [List.length_cons] <;> push_cast <;> omega
    · refine ⟨?_, ?_⟩ <;>
        simp only [List.length_cons, List.length_dropLast] <;> push_cast <;> omega
  · rw [update3D_dead g r1 r2 r3 (by revert ha; cases g.alive <;> simp)]
    exact ⟨hs, hl⟩

theorem reach2D_inv {g : Game2D} (h : Reach2D g) : Inv2D g := by
  induction h with
  | init => exact ⟨by decide, by decide⟩
  | step g r1 r2 _ ih => exact inv2D_update r1 r2 ih
  | key g k _ ih =>
      obtain ⟨h1, h2, _, _⟩ := change_dir2D_fields g k
      exact ⟨by rw [h1, h2]; exact ih.1, by rw [h1]; exact ih.2⟩
  | restart g _ _ => exact ⟨by decide, by decide⟩

theorem reach3D_inv {g : Game3D} (h : Reach3D g) : Inv3D g := by
  induction h with
  | init => exact ⟨by decide, by decide⟩
  | step g r1 r2 r3 _ ih => exact inv3D_update r1 r2 r3 ih
  | key g k _ ih =>
      obtain ⟨h1, h2⟩ := change_dir3D_fields g k
      exact ⟨by rw [h1, h2]; exact ih.1, by rw [h1]; exact ih.2⟩
  | restart g _ _ => exact ⟨by decide, by decide⟩

theorem frameOK_applyTurn {o : Orientation} (t : Turn) (h : o.FrameOK) :
    (o.applyTurn t).FrameOK := by
  obtain ⟨hf, hu, hr, _, _, _, hfu, hfr, hur, afu, afr, aur⟩ := h
  cases t with
  | pitchUp =>
      simp only [Orientation.applyTurn, Orientation.pitch_up]
      refine ⟨hu, Vec3.isSignedUnit_neg hf, hr, Vec3.isSignedUnit_dot_self hu,
        Vec3.isSignedUnit_dot_self (Vec3.isSignedUnit_neg hf),
        Vec3.isSignedUnit_dot_self hr, ?_, hur, ?_, ?_, aur, ?_⟩
      · rw [Vec3.dot_comm, Vec3.neg_dot, hfu, neg_zero]
      · rw [Vec3.neg_dot, hfr, neg_zero]
      · rw [Vec3.axisIdx_neg]; exact afu.symm
      · rw [Vec3.axisIdx_neg]; exact afr
  | pitchDown =>
      simp only [Orientation.applyTurn, Orientation.pitch_down]
      refine ⟨Vec3.isSignedUnit_neg hu, hf, hr,
        Vec3.isSignedUnit_dot_self (Vec3.isSignedUnit_neg hu),
        Vec3.isSignedUnit_dot_self hf, Vec3.isSignedUnit_dot_self hr,
        ?_, ?_, hfr, ?_, ?_, afr⟩
      · rw [Vec3.neg_dot, Vec3.dot_comm, hfu, neg_zero]
      · rw [Vec3.neg_dot, hur, neg_zero]
      · rw [Vec3.axisIdx_neg]; exact afu.symm
      · rw [Vec3.axisIdx_neg]; exact aur
  | yawLeft =>
      simp only [Orientation.applyTurn, Orientation.yaw_left]
      refine ⟨Vec3.isSignedUnit_neg hr, hu, hf,
        Vec3.isSignedUnit_dot_self (Vec3.isSignedUnit_neg hr),
        Vec3.isSignedUnit_dot_self hu, Vec3.isSignedUnit_dot_self hf,
        ?_, ?_, ?_, ?_, ?_, afu.symm⟩
      · rw [Vec3.neg_dot, Vec3.dot_comm, hur, neg_zero]
      · rw [Vec3.neg_dot, Vec3.dot_comm, hfr, neg_zero]
      · rw [Vec3.dot_comm]; exact hfu
      · rw [Vec3.axisIdx_neg]; exact aur.symm
      · rw [Vec3.axisIdx_neg]; exact afr.symm
  | yawRight =>
      simp only [Orientation.applyTurn, Orientation.yaw_right]
      refine ⟨hr, hu, Vec3.isSignedUnit_neg hf, Vec3.isSignedUnit_dot_self hr,
        Vec3.isSignedUnit_dot_self hu,
        Vec3.isSignedUnit_dot_self (Vec3.isSignedUnit_neg hf),
        ?_, ?_, ?_, aur.symm, ?_, ?_⟩
      · rw [Vec3.dot_comm]; exact hur
      · rw [Vec3.dot_comm, Vec3.neg_dot, hfr, neg_zero]
      · rw [Vec3.dot_comm, Vec3.neg_dot, hfu, neg_zero]
      · rw [Vec3.axisIdx_neg]; exact afr.symm
      · rw [Vec3.axisIdx_neg]; exact afu.symm

theorem frameOK_applyTurns (ts : List Turn) {o : Orientation} (h : o.FrameOK) :
    (o.applyTurns ts).FrameOK := by
  induction ts generalizing o with
  | nil => exact h
  | cons t ts ih => exact ih (frameOK_applyTurn t h)

theorem frameOK_new : Orientation.new.FrameOK := by
  unfold Orientation.FrameOK
  refine ⟨?_, ?_, ?_, ?_, ?_, ?_, ?_, ?_, ?_, ?_, ?_, ?_⟩ <;> decide

/-- C3: for every finite sequence of pitch-up / pitch-down / yaw-left /
yaw-right transitions applied to the initial orientation frame, the resulting
forward/up/right triple consists of three signed standard basis vectors of
unit length, pairwise orthogonal, no two of which share an axis (a signed
permutation of the standard basis). -/
theorem claim_orientation_orthonormal (ts : List Turn) :
    (Orientation.new.applyTurns ts).FrameOK :=
  frameOK_applyTurns ts frameOK_new

/-- C1: in either variant, from an alive state with a snake of length ≥ 2,
if the wrapped new head coordinate computed in `update` already lies on the
snake body then `update` transitions the state to game over and leaves the
snake body, score, and food coordinate unchanged for that tick. -/
theorem claim_self_collision_game_over :
    (∀ (g : Game2D) (r1 r2 : ℚ), g.alive = true → 2 ≤ g.snake.length →
      g.newHead ∈ g.snake →
      (g.update r1 r2).alive = false ∧ (g.update r1 r2).snake = g.snake ∧
      (g.update r1 r2).score = g.score ∧ (g.update r1 r2).food = g.food) ∧
    (∀ (g : Game3D) (r1 r2 r3 : ℚ), g.alive = true → 2 ≤ g.snake.length →
      g.newHead ∈ g.snake →
      (g.update r1 r2 r3).alive = false ∧ (g.update r1 r2 r3).snake = g.snake ∧
      (g.update r1 r2 r3).score = g.score ∧ (g.update r1 r2 r3).food = g.food) := by
  constructor
  · intro g r1 r2 ha hlen hmem
    have hne : g.snake ≠ [] := by
      intro he
      rw [he] at hlen
      simp at hlen
    rw [update2D_eq g r1 r2 ha hne, if_pos hmem]
    exact ⟨rfl, rfl, rfl, rfl⟩
  · intro g r1 r2 r3 ha hlen hmem
    have hne : g.snake ≠ [] := by
      intro he
      rw [he] at hlen
      simp at hlen
    rw [update3D_eq g r1 r2 r3 ha hne, if_pos hmem]
    exact ⟨rfl, rfl, rfl, rfl⟩

/-- Witness for C1: concrete length-2 snakes in both variants stepping into
their own body cell. -/
theorem claim_self_collision_game_over_witness :
    ((gSelf2.update 0 0).alive = false ∧ (gSelf2.update 0 0).snake = gSelf2.snake ∧
     (gSelf2.update 0 0).score = gSelf2.score ∧ (gSelf2.update 0 0).food = gSelf2.food) ∧
    ((gSelf3.update 0 0 0).alive = false ∧ (gSelf3.update 0 0 0).snake = gSelf3.snake ∧
     (gSelf3.update 0 0 0).score = gSelf3.score ∧
     (gSelf3.update 0 0 0).food = gSelf3.food) :=
  ⟨claim_self_collision_game_over.1 gSelf2 0 0 rfl (by decide) (by decide),
   claim_self_collision_game_over.2 gSelf3 0 0 0 rfl (by decide) (by decide)⟩

/-- C2: in either variant, on a tick that does not end in game over, the
snake length grows by exactly one when the new head equals the food and is
conserved otherwise; and in every reachable state the length is at least 1. -/
theorem claim_length_conservation :
    (∀ (g : Game2D) (r1 r2 : ℚ), g.alive = true → g.snake ≠ [] →
      (g.update r1 r2).alive = true →
      (g.update r1 r2).snake.length =
        (if g.newHead = g.food then g.snake.length + 1 else g.snake.length)) ∧
    (∀ (g : Game3D) (r1 r2 r3 : ℚ), g.alive = true → g.snake ≠ [] →
      (g.update r1 r2 r3).alive = true →
      (g.update r1 r2 r3).snake.length =
        (if g.newHead = g.food then g.snake.length + 1 else g.snake.length)) ∧
    (∀ g : Game2D, Reach2D g → 1 ≤ g.snake.length) ∧
    (∀ g : Game3D, Reach3D g → 1 ≤ g.snake.length) := by
  refine ⟨?_, ?_, fun g h => (reach2D_inv h).2, fun g h => (reach3D_inv h).2⟩
  · intro g r1 r2 ha hne halive
    rw [update2D_eq g r1 r2 ha hne] at halive ⊢
    by_cases hmem : g.newHead ∈ g.snake
    · rw [if_pos hmem] at halive
      simp at halive
    rw [if_neg hmem] at halive ⊢
    by_cases heq : g.newHead = g.food
    · rw [if_pos heq, if_pos heq]
      simp
    · rw [if_neg heq, if_neg heq]
      simp
  · intro g r1 r2 r3 ha hne halive
    rw [update3D_eq g r1 r2 r3 ha hne] at halive ⊢
    by_cases hmem : g.newHead ∈ g.snake
    · rw [if_pos hmem] at halive
      simp at halive
    rw [if_neg hmem] at halive ⊢
    have hlen : 1 ≤ g.snake.length := List.length_pos.mpr hne
    by_cases heq : g.newHead = g.food
    · rw [if_pos (Vec3.eq_iff.mp heq), if_pos heq]
      simp
    · have hcomp : ¬(g.newHead.x = g.food.x ∧ g.newHead.y = g.food.y ∧
          g.newHead.z = g.food.z) := fun hc => heq (Vec3.eq_iff.mpr hc)
      rw [if_neg hcomp, if_neg heq]
      simp only [List.length_cons, List.length_dropLast]
      omega

/-- Witness for C2: a non-eating tick from each fresh instance conserves the
length-1 snake, and fresh instances have length ≥ 1. -/
theorem claim_length_conservation_witness :
    ((Game2D.new.update 0 0).snake.length =
      (if Game2D.new.newHead = Game2D.new.food then Game2D.new.snake.length + 1
       else Game2D.new.snake.length)) ∧
    ((Game3D.new.update 0 0 0).snake.length =
      (if Game3D.new.newHead = Game3D.new.food then Game3D.new.snake.length + 1
       else Game3D.new.snake.length)) ∧
    1 ≤ Game2D.new.snake.length ∧ 1 ≤ Game3D.new.snake.length :=
  ⟨claim_length_conservation.1 Game2D.new 0 0 rfl (by decide) (by decide),
   claim_length_conservation.2.1 Game3D.new 0 0 0 rfl (by decide) (by decide),
   claim_length_conservation.2.2.1 _ Reach2D.init,
   claim_length_conservation.2.2.2 _ Reach3D.init⟩

/-- C9: in every game state reachable from a fresh instance of either variant
by any sequence of `update`, `change_dir` and `restart`, the score equals the
snake length minus 1. -/
theorem claim_score_length_invariant :
    (∀ g : Game2D, Reach2D g → g.score = (g.snake.length : Int) - 1) ∧
    (∀ g : Game3D, Reach3D g → g.score = (g.snake.length : Int) - 1) :=
  ⟨fun _ h => (reach2D_inv h).1, fun _ h => (reach3D_inv h).1⟩

/-- Witness for C9: the invariant at the two fresh instances. -/
theorem claim_score_length_invariant_witness :
    Game2D.new.score = (Game2D.new.snake.length : Int) - 1 ∧
    Game3D.new.score = (Game3D.new.snake.length : Int) - 1 :=
  ⟨claim_score_length_invariant.1 _ Reach2D.init,
   claim_score_length_invariant.2 _ Reach3D.init⟩

/-- C5 counterexample: in the eating scenario of the spec the relocated food is
not validated against the new head, so for the random samples
(9/16, 1/2) — producing ⌊9/16·20⌋ = 11 and ⌊1/2·20⌋ = 10 — the food lands
exactly on (11,10), refuting "food relocated to a coordinate ≠ (11,10)". -/
theorem claim_eat_scenario_counterexample :
    (gEat.update (9/16) (1/2)).snake = [(11, 10), (10, 10)] ∧
    (gEat.update (9/16) (1/2)).score = 1 ∧
    (gEat.update (9/16) (1/2)).food = (11, 10) := by
  rw [update2D_eq gEat _ _ rfl (by decide), if_neg (by decide),
    if_pos (by decide : gEat.newHead = gEat.food)]
  refine ⟨by show gEat.newHead :: gEat.snake = [(11, 10), (10, 10)]; decide, rfl, ?_⟩
  show (randCoord (9/16) WIDTH, randCoord (1/2) HEIGHT) = (11, 10)
  rw [randCoord_eq_floor, randCoord_eq_floor]
  norm_num [WIDTH, HEIGHT, Prod.mk.injEq]

/-- C5 (amended): from the state with snake [(10,10)], direction (1,0) and
food (11,10), for every value of the random source one `update` yields snake
[(11,10),(10,10)] and score 1, and the food becomes exactly the coordinate
produced by the random source — which is not validated against the new head
and may equal (11,10). -/
theorem claim_eat_scenario_amended (r1 r2 : ℚ) :
    (gEat.update r1 r2).snake = [(11, 10), (10, 10)] ∧
    (gEat.update r1 r2).score = 1 ∧
    (gEat.update r1 r2).food = (randCoord r1 WIDTH, randCoord r2 HEIGHT) := by
  rw [update2D_eq gEat r1 r2 rfl (by decide), if_neg (by decide),
    if_pos (by decide : gEat.newHead = gEat.food)]
  exact ⟨by show gEat.newHead :: gEat.snake = [(11, 10), (10, 10)]; decide, rfl, rfl⟩

/-- C6: the wrap operation, computed per axis as (value + extent) % extent,
maps any in-bounds coordinate displaced by at most one cell per axis back
into [0, extent) on every axis; in particular the wrap-around
scenario of the spec: a 2D snake with head (19,10) heading right has head (0,10) after
one `update`. -/
theorem claim_wrap_in_range :
    (∀ v w : Vec3, 0 ≤ v.x → v.x < WIDTH → 0 ≤ v.y → v.y < HEIGHT →
      0 ≤ v.z → v.z < DEPTH → w.x.natAbs ≤ 1 → w.y.natAbs ≤ 1 → w.z.natAbs ≤ 1 →
      0 ≤ (v.add w).wrap.x ∧ (v.add w).wrap.x < WIDTH ∧
      0 ≤ (v.add w).wrap.y ∧ (v.add w).wrap.y < HEIGHT ∧
      0 ≤ (v.add w).wrap.z ∧ (v.add w).wrap.z < DEPTH) ∧
    (gWrap.update 0 0).snake = [(0, 10)] := by
  constructor
  · intro v w hx0 hx1 hy0 hy1 hz0 hz1 wx wy wz
    have hW : WIDTH = 20 := rfl
    have hH : HEIGHT = 20 := rfl
    have hD : DEPTH = 20 := rfl
    simp only [Vec3.add, Vec3.wrap]
    obtain ⟨p1, p2⟩ := tmod_range (v.x + w.x + WIDTH) WIDTH (by omega) (by omega)
    obtain ⟨q1, q2⟩ := tmod_range (v.y + w.y + HEIGHT) HEIGHT (by omega) (by omega)
    obtain ⟨s1, s2⟩ := tmod_range (v.z + w.z + DEPTH) DEPTH (by omega) (by omega)
    exact ⟨p1, p2, q1, q2, s1, s2⟩
  · decide

/-- Witness for C6: the in-bounds coordinate (0,0,19) displaced by (-1,1,1)
wraps back into bounds. -/
theorem claim_wrap_in_range_witness :
    0 ≤ ((⟨0, 0, 19⟩ : Vec3).add ⟨-1, 1, 1⟩).wrap.x ∧
    ((⟨0, 0, 19⟩ : Vec3).add ⟨-1, 1, 1⟩).wrap.x < WIDTH ∧
    0 ≤ ((⟨0, 0, 19⟩ : Vec3).add ⟨-1, 1, 1⟩).wrap.y ∧
    ((⟨0, 0, 19⟩ : Vec3).add ⟨-1, 1, 1⟩).wrap.y < HEIGHT ∧
    0 ≤ ((⟨0, 0, 19⟩ : Vec3).add ⟨-1, 1, 1⟩).wrap.z ∧
    ((⟨0, 0, 19⟩ : Vec3).add ⟨-1, 1, 1⟩).wrap.z < DEPTH :=
  claim_wrap_in_range.1 ⟨0, 0, 19⟩ ⟨-1, 1, 1⟩ (by decide) (by decide) (by decide)
    (by decide) (by decide) (by decide) (by decide) (by decide) (by decide)

/-- C7: in the 2D variant, from each of the four directions, a single
`change_dir` call whose key maps to the exact opposite of the current
direction leaves the direction unchanged. -/
theorem claim_no_reversal :
    ∀ g : Game2D,
      (g.dir = (1, 0) → (g.change_dir "ArrowLeft").dir = g.dir) ∧
      (g.dir = (-1, 0) → (g.change_dir "ArrowRight").dir = g.dir) ∧
      (g.dir = (0, 1) → (g.change_dir "ArrowUp").dir = g.dir) ∧
      (g.dir = (0, -1) → (g.change_dir "ArrowDown").dir = g.dir) := by
  intro g
  refine ⟨?_, ?_, ?_, ?_⟩ <;> intro h <;> simp [Game2D.change_dir, h]

/-- Witness for C7: a fresh 2D instance heads right; "ArrowLeft" (the exact
opposite) leaves the direction unchanged. -/
theorem claim_no_reversal_witness :
    (Game2D.new.change_dir "ArrowLeft").dir = Game2D.new.dir :=
  (claim_no_reversal Game2D.new).1 rfl

/-- C8: the perspective projection equals, per axis, (coord - center) × k /
(coord.z + k) + center scaled by the cell size, with k = 40 (twice the depth
extent) and center (10,10) (half the grid extent); and the point (10,10,0)
projects to (10,10) scaled by cell size (zero parallax at z = 0). -/
theorem claim_projection_formula :
    (∀ x y z : ℚ, project_point x y z = projectSpec x y z) ∧
    project_point 10 10 0 = (10 * CELL, 10 * CELL) := by
  constructor
  · intro x y z
    unfold project_point projectSpec
    norm_num [WIDTH, HEIGHT, DEPTH]
  · norm_num [project_point, WIDTH, HEIGHT, DEPTH, CELL]

/-- C10: in the 2D variant there is a pair of `change_dir` calls (here
"ArrowUp" then "ArrowLeft" from direction (1,0)) after which the direction
equals the exact opposite of the direction before the pair: the no-reversal
guard holds only for a single call. -/
theorem claim_double_turn_reversal :
    ∃ (g : Game2D) (k1 k2 : String),
      ((g.change_dir k1).change_dir k2).dir = (-g.dir.1, -g.dir.2) :=
  ⟨Game2D.new, "ArrowUp", "ArrowLeft", by decide⟩

/-- C4: evaluation of the depth sort at a failing input.  `Game3D::draw`
sorts the drawables by z ascending, so the snake cell on the nearest plane
(z = 0) is drawn first and the food on the farthest plane (z = 19) is drawn
last — yet under the perspective projection a larger z is farther from the
viewer (its image lies closer to the vanishing center, second conjunct):
the farther object is painted last, not first, contradicting the
farthest-to-nearest order the claim states, which the comment in the code itself also promises. -/
theorem claim_draw_order_eval :
    gDepth.drawItems = [(⟨10, 10, 0⟩, "green"), (⟨5, 5, 19⟩, "red")] ∧
    |(project_point 5 5 19).1 - 10 * CELL| < |(project_point 5 5 0).1 - 10 * CELL| := by
  constructor
  · have hlist : gDepth.drawItems =
        ([((⟨10, 10, 0⟩ : Vec3), "green"), ((⟨5, 5, 19⟩ : Vec3), "red")] :
          List (Vec3 × String)).mergeSort (fun a b => a.1.z ≤ b.1.z) := rfl
    rw [hlist, List.mergeSort_of_sorted]
    simp
  · have h19 : (project_point 5 5 19).1 - 10 * CELL = -(4000 / 59 : ℚ) := by
      norm_num [project_point, WIDTH, HEIGHT, DEPTH, CELL]
    have h0 : (project_point 5 5 0).1 - 10 * CELL = -(100 : ℚ) := by
      norm_num [project_point, WIDTH, HEIGHT, DEPTH, CELL]
    rw [h19, h0, abs_neg, abs_neg, abs_of_nonneg (by norm_num),
      abs_of_nonneg (by norm_num)]
    norm_num

end SnakeGame
